import Mathlib

/-!
Verification of the pdf-splitter repository against its specification.

The repository ships a browser UI (`main.js`) that hands raw PDF bytes to a
Python function `split_pdf_data` running under Pyodide and consumes the
returned result object.  The Python core (`pdf_splitter.py`) is fetched at
runtime and is not part of the checked-in sources, so the core pipeline
(destination resolver, outline flattener, range partitioner, chapter
extractor, TOC serializer, orchestrator) is modelled here from the
specification text, while the UI side (`handleFile`, the result-processing
branch, and the ZIP button handler) is embedded directly from `main.js`.

Machine integers do not overflow in any of the quantities involved (page
counts), so page indices are modelled as `Int` with explicit clamping,
matching the arithmetic of the specified algorithm.
-/

set_option maxRecDepth 100000

namespace PdfSplitter

/-- Modelled from the spec (§3): a ChapterStart pairs a title with a resolved
zero-based page index.  Derived by the Outline Flattener; `pdf_splitter.py`
is absent from the sources. -/
structure ChapterStart where
  title : String
  page_index : Int
deriving DecidableEq, Repr

/-- Modelled from the spec (§3): a ChapterRange is a titled inclusive page
interval `[start_page, end_page]`. -/
structure ChapterRange where
  title : String
  start_page : Int
  end_page : Int
deriving DecidableEq, Repr

/-- Modelled from the spec (§4.3 step 1): clamp a page index into
`[0, total_pages - 1]`. -/
def clampIdx (total p : Int) : Int := max 0 (min p (total - 1))

/-- Modelled from the spec (§4.3 steps 1 and 2): clamp every page index into
range, then enforce non-decreasing order by clamping an index that is
strictly below the previous kept start up to that previous start.  `prev` is
the previous kept start (initially 0, which is also the lower clamp bound,
so it does not disturb the first entry). -/
def normStarts (total : Int) : List ChapterStart → Int → List ChapterStart
  | [], _ => []
  | c :: rest, prev =>
    let p := max prev (clampIdx total c.page_index)
    ⟨c.title, p⟩ :: normStarts total rest p

/-- Modelled from the spec (§4.3 step 3): entry `i` ends at
`(start of entry i+1) - 1`, the last entry at `total_pages - 1`.  Step 5:
degenerate ranges (including a computed end before the start, which §4.2
calls a zero/negative-length span) are retained, never dropped. -/
def mkRanges (total : Int) : List ChapterStart → List ChapterRange
  | [] => []
  | [c] => [⟨c.title, c.page_index, total - 1⟩]
  | c :: d :: rest =>
    ⟨c.title, c.page_index, d.page_index - 1⟩ :: mkRanges total (d :: rest)

/-- Modelled from the spec (§4.3): the Range Partitioner, from the ordered
ChapterStart sequence and the total page count to the ChapterRange
sequence. -/
def partitionRanges (cs : List ChapterStart) (total : Int) : List ChapterRange :=
  mkRanges total (normStarts total cs 0)

/-- The first retained start page: the start of the first normalised
chapter (0 for an empty chapter list). -/
def firstRetainedStart (cs : List ChapterStart) (total : Int) : Int :=
  match normStarts total cs 0 with
  | [] => 0
  | c :: _ => c.page_index

/-- Membership of a page in a ChapterRange, as the inclusive interval
`[start_page, end_page]`. -/
def pageMem (p : Int) (r : ChapterRange) : Bool :=
  decide (r.start_page ≤ p ∧ p ≤ r.end_page)

/-- Bounded monotonicity invariant for a normalised start list: every start
lies in `[lo, hi]` and the starts are non-decreasing. -/
def BoundedMono (lo hi : Int) : List ChapterStart → Prop
  | [] => True
  | c :: rest => lo ≤ c.page_index ∧ c.page_index ≤ hi ∧ BoundedMono c.page_index hi rest

theorem clampIdx_le (total p : Int) (ht : 1 ≤ total) : clampIdx total p ≤ total - 1 :=
  max_le (by omega) (min_le_right _ _)

theorem normStarts_boundedMono (total : Int) (cs : List ChapterStart) (prev : Int)
    (ht : 1 ≤ total) (hp : prev ≤ total - 1) :
    BoundedMono prev (total - 1) (normStarts total cs prev) := by
  induction cs generalizing prev with
  | nil => trivial
  | cons c rest ih =>
    exact ⟨le_max_left _ _, max_le hp (clampIdx_le total _ ht),
      ih _ (max_le hp (clampIdx_le total _ ht))⟩

theorem normStarts_length (total : Int) (cs : List ChapterStart) (prev : Int) :
    (normStarts total cs prev).length = cs.length := by
  induction cs generalizing prev with
  | nil => rfl
  | cons c rest ih => simp [normStarts, ih]

theorem mkRanges_length (total : Int) (s : List ChapterStart) :
    (mkRanges total s).length = s.length := by
  induction s with
  | nil => rfl
  | cons c rest ih =>
    cases rest with
    | nil => rfl
    | cons d rest2 => simpa [mkRanges] using ih

/-- Core counting lemma: over a bounded non-decreasing start list, each page
is in exactly one produced range when it lies in `[first start, total)` and
in none otherwise. -/
theorem mkRanges_countP (total p : Int) :
    ∀ (rest : List ChapterStart) (c : ChapterStart) (lo : Int),
      BoundedMono lo (total - 1) (c :: rest) →
      ((mkRanges total (c :: rest)).countP (pageMem p)) =
        if c.page_index ≤ p ∧ p < total then 1 else 0 := by
  intro rest
  induction rest with
  | nil =>
    intro c lo hbm
    obtain ⟨h1, h2, _⟩ := hbm
    simp only [mkRanges, List.countP_cons, List.countP_nil, pageMem, decide_eq_true_eq]
    split_ifs <;> omega
  | cons d rest2 ih =>
    intro c lo hbm
    obtain ⟨h1, h2, hbm2⟩ := hbm
    have hd1 : c.page_index ≤ d.page_index := hbm2.1
    have hd2 : d.page_index ≤ total - 1 := hbm2.2.1
    have ihr := ih d c.page_index hbm2
    simp only [mkRanges, List.countP_cons]
    rw [ihr]
    simp only [pageMem, decide_eq_true_eq]
    split_ifs <;> omega

theorem mkRanges_end_ge (total : Int) (s : List ChapterStart) (lo : Int)
    (hbm : BoundedMono lo (total - 1) s) :
    ∀ r ∈ mkRanges total s, r.start_page - 1 ≤ r.end_page := by
  induction s generalizing lo with
  | nil => intro r hr; simp [mkRanges] at hr
  | cons c rest ih =>
    cases rest with
    | nil =>
      obtain ⟨h1, h2, _⟩ := hbm
      intro r hr
      simp only [mkRanges, List.mem_singleton] at hr
      subst hr; simp; omega
    | cons d rest2 =>
      obtain ⟨h1, h2, hbm2⟩ := hbm
      have hd1 : c.page_index ≤ d.page_index := hbm2.1
      intro r hr
      simp only [mkRanges, List.mem_cons] at hr
      rcases hr with rfl | hr
      · simp; omega
      · exact ih c.page_index hbm2 r (by simpa [mkRanges] using hr)

/-- C1: for every non-empty ChapterStart sequence and positive page count,
the produced ranges partition `[first_retained_start, total_pages)` exactly:
each page in that interval lies in exactly one range, and no page outside it
lies in any range (no overlaps, no gaps). -/
theorem partitioner_exact_partition (cs : List ChapterStart) (total p : Int)
    (hcs : cs ≠ []) (ht : 1 ≤ total) :
    (partitionRanges cs total).countP (pageMem p) =
      if firstRetainedStart cs total ≤ p ∧ p < total then 1 else 0 := by
  have hns : normStarts total cs 0 ≠ [] := by
    intro h
    have := normStarts_length total cs 0
    rw [h] at this
    exact hcs (List.length_eq_zero.mp this.symm)
  have hbm := normStarts_boundedMono total cs 0 ht (by omega)
  unfold partitionRanges firstRetainedStart
  cases hE : normStarts total cs 0 with
  | nil => exact absurd hE hns
  | cons a l =>
    rw [hE] at hbm
    exact mkRanges_countP total p l a 0 hbm

/-- Witness for C1 at a concrete one-chapter, one-page document. -/
theorem partitioner_exact_partition_witness :
    (partitionRanges [ChapterStart.mk "A" 0] 1).countP (pageMem 0) = 1 := by
  have h := partitioner_exact_partition [ChapterStart.mk "A" 0] 1 0 (by decide) (by decide)
  rw [h]; decide

/-- C2 counterexample: with starts at pages 5 then 3 (backward order) in a
10-page document, step 2 clamps the second start up to 5 and step 3 then
gives the FIRST chapter `end_page = 4 < 5 = start_page`; moreover the
clamped chapter survives with `end_page = 9 ≠ start_page = 5`, not as a
degenerate range with `end_page = start_page`. -/
theorem partitioner_monotonicity_counterexample :
    ((partitionRanges [ChapterStart.mk "A" 5, ChapterStart.mk "B" 3] 10).any
      (fun r => decide (r.end_page < r.start_page))) = true ∧
    partitionRanges [ChapterStart.mk "A" 5, ChapterStart.mk "B" 3] 10 =
      [ChapterRange.mk "A" 5 4, ChapterRange.mk "B" 5 9] := by
  constructor <;> rfl

/-- C2 amended: the partitioner never produces `end_page < start_page - 1`
(an empty range `end_page = start_page - 1` arises exactly when the next
kept start equals the chapter's own start), and no chapter is dropped: the
output has one range per input ChapterStart, so a clamped chapter always
survives. -/
theorem partitioner_end_ge_start_sub_one (cs : List ChapterStart) (total : Int)
    (ht : 1 ≤ total) :
    (partitionRanges cs total).length = cs.length ∧
    ∀ r ∈ partitionRanges cs total, r.start_page - 1 ≤ r.end_page := by
  constructor
  · unfold partitionRanges
    rw [mkRanges_length, normStarts_length]
  · exact mkRanges_end_ge total _ 0 (normStarts_boundedMono total cs 0 ht (by omega))

/-- Witness for the amended C2 at the backward-ordered concrete input. -/
theorem partitioner_end_ge_start_sub_one_witness :
    (partitionRanges [ChapterStart.mk "A" 5, ChapterStart.mk "B" 3] 10).length = 2 ∧
    ∀ r ∈ partitionRanges [ChapterStart.mk "A" 5, ChapterStart.mk "B" 3] 10,
      r.start_page - 1 ≤ r.end_page :=
  partitioner_end_ge_start_sub_one [ChapterStart.mk "A" 5, ChapterStart.mk "B" 3] 10
    (by decide)

/-- Modelled from the spec (§3): one top-level outline node, with its
destination already abstracted to a resolved zero-based page index or
`none` for an unresolved destination (§4.1); children are ignored for
splitting (§4.2), so they are not represented. -/
structure OutlineEntry where
  title : String
  dest : Option Int
deriving DecidableEq, Repr

/-- Modelled from the spec (§4.2): an empty or whitespace-only title is
replaced by a synthesized placeholder with the 1-based position. -/
def placeholderTitle (i : Nat) (t : String) : String :=
  if t.data.all (fun c => c.isWhitespace) then "Untitled chapter " ++ toString i else t

/-- Modelled from the spec (§4.2): the Outline Flattener keeps every
top-level entry whose destination resolved, in document order, with
placeholder titles for blank ones. -/
def flattenOutline (es : List OutlineEntry) : List ChapterStart :=
  es.enum.filterMap (fun ie =>
    ie.2.dest.map (fun p => ChapterStart.mk (placeholderTitle (ie.1 + 1) ie.2.title) p))

/-- Modelled from the spec (§4.5): one TOC line per chapter, 1-based for
human display. -/
def tocLine (r : ChapterRange) : String :=
  r.title ++ ": pages " ++ toString (r.start_page + 1) ++ "-" ++ toString (r.end_page + 1)

/-- Modelled from the spec (§4.5): the TOC Serializer renders the plain-text
TOC, one line per chapter. -/
def tocText (rs : List ChapterRange) : String :=
  String.intercalate "\n" (rs.map tocLine)

/-- The character written for a decimal digit `d` (48 is the code of 0). -/
def digitChar (d : Nat) : Char := Char.ofNat (48 + d % 10)

def pad3Chars (n : Nat) : List Char :=
  [digitChar (n / 100), digitChar (n / 10), digitChar n]

/-- Modelled from the spec (§4.4): the 3-digit, zero-padded sequence number
(sequence numbers above 999 print in full, as zero-padding to width 3 then
has no effect). -/
def pad3 (n : Nat) : String :=
  if n < 1000 then String.mk (pad3Chars n) else toString n

/-- Modelled from the spec (§4.4): characters kept as-is by filename
sanitization. -/
def safeChar (c : Char) : Bool := c.isAlphanum || c == Char.ofNat 45 || c == Char.ofNat 95 || c == Char.ofNat 32

/-- Modelled from the spec (§4.4): filename sanitization — replace
characters unsafe for filenames with spaces, collapse whitespace runs to a
single underscore, cap the length (at 60 characters). -/
def sanitizeTitle (s : String) : String :=
  let cleaned := s.data.map (fun c => if safeChar c then c else Char.ofNat 32)
  let words := (cleaned.splitOnP (fun c => c == Char.ofNat 32)).filter (fun w => !w.isEmpty)
  String.mk ((List.intercalate [Char.ofNat 95] words).take 60)

/-- Modelled from the spec (§4.4): chapter filename
`{3-digit, zero-padded sequence number}_{sanitized title}.pdf`. -/
def chapterFilename (n : Nat) (title : String) : String :=
  pad3 n ++ "_" ++ sanitizeTitle title ++ ".pdf"

/-- Modelled from the spec (§3): a ChapterArtifact; its byte stream is
abstracted to the list of source page indices it contains, since low-level PDF
serialization is out of scope (§1). -/
structure ChapterArtifact where
  filename : String
  pages : List Int
deriving DecidableEq, Repr

/-- The pages `[start_page, end_page]` inclusive carried by one chapter. -/
def rangePages (r : ChapterRange) : List Int :=
  (List.range (r.end_page + 1 - r.start_page).toNat).map (fun k => r.start_page + k)

/-- Modelled from the spec (§2, §5): a document for one split request —
page count, top-level outline, and the PDF capability behaviour: whether
extraction of the chapter with a given 1-based sequence number succeeds
(§4.4 failure policy). -/
structure DocModel where
  total_pages : Int
  outline : List OutlineEntry
  extract_ok : Nat → Bool

/-- Modelled from the spec (§3): the SplitResult record crossing the
core/UI boundary. -/
structure SplitResult where
  status : String
  message : String
  toc_text : String
  toc_records : List ChapterRange
  chapters : List ChapterArtifact
  warnings : List String

/-- Modelled from the spec (§4.1): one warning per unresolved destination,
in document order. -/
def resolveWarnings (es : List OutlineEntry) : List String :=
  es.filterMap (fun e =>
    if e.dest.isNone then
      some ("Warning: could not resolve destination for " ++ e.title)
    else none)

/-- Modelled from the spec (§4.3 steps 1-2): one warning per clamped page
index, in order. -/
def clampWarnings (total : Int) : List ChapterStart → Int → List String
  | [], _ => []
  | c :: rest, prev =>
    let p := max prev (clampIdx total c.page_index)
    (if p ≠ c.page_index then ["Warning: adjusted page index for " ++ c.title] else [])
      ++ clampWarnings total rest p

/-- Modelled from the spec (§4.3 step 4): dropped leading pages are
reported with a warning. -/
def leadingWarnings (cs : List ChapterStart) (total : Int) : List String :=
  if 0 < firstRetainedStart cs total then
    ["Warning: dropped " ++ toString (firstRetainedStart cs total) ++ " leading pages"]
  else []

/-- Modelled from the spec (§4.4): the Chapter Extractor over the ranges
from sequence number `n` on — one artifact per range whose extraction
succeeds, in range order, with sequence-numbered filenames. -/
def extractChaptersAux (doc : DocModel) (n : Nat) : List ChapterRange → List ChapterArtifact
  | [] => []
  | r :: rest =>
    (if doc.extract_ok n then [⟨chapterFilename n r.title, rangePages r⟩] else [])
      ++ extractChaptersAux doc (n + 1) rest

/-- Modelled from the spec (§4.4): the Chapter Extractor, sequence numbers
starting at 1. -/
def extractChapters (doc : DocModel) (rs : List ChapterRange) : List ChapterArtifact :=
  extractChaptersAux doc 1 rs

/-- Modelled from the spec (§4.4): one warning per failed chapter
extraction, in order. -/
def extractWarningsAux (doc : DocModel) (n : Nat) : List ChapterRange → List String
  | [] => []
  | _ :: rest =>
    (if doc.extract_ok n then [] else ["Warning: failed to extract chapter " ++ toString n])
      ++ extractWarningsAux doc (n + 1) rest

def extractWarnings (doc : DocModel) (rs : List ChapterRange) : List String :=
  extractWarningsAux doc 1 rs

/-- Modelled from the spec (§4.6, §6, §7): the Orchestrator.
`pdf_splitter.py` is fetched at runtime and absent from the sources, so the
whole pipeline after a successful parse is modelled here: flatten the
outline, partition, serialize the TOC, extract each chapter, aggregate
status and warnings.  It is a total function, so every input yields a
SplitResult. -/
def splitModel (doc : DocModel) : SplitResult :=
  match flattenOutline doc.outline with
  | [] =>
    { status := "failure"
      message := "No top-level outline entries found; no chapters to split."
      toc_text := ""
      toc_records := []
      chapters := []
      warnings := resolveWarnings doc.outline }
  | c :: rest =>
    let starts := c :: rest
    let ranges := partitionRanges starts doc.total_pages
    let arts := extractChapters doc ranges
    let st :=
      if arts.length = ranges.length then "success"
      else if arts.length ≠ 0 then "partial"
      else "failure"
    { status := st
      message :=
        if st = "success" then "Split into " ++ toString arts.length ++ " chapters."
        else "Some chapters could not be extracted."
      toc_text := tocText ranges
      toc_records := ranges
      chapters := arts
      warnings := resolveWarnings doc.outline ++ clampWarnings doc.total_pages starts 0
        ++ leadingWarnings starts doc.total_pages ++ extractWarnings doc ranges }

/-! ## UI layer, embedded from `main.js` -/

/-- Character-list version of `String.isPrefixOf`. -/
def startsWithData : List Char → List Char → Bool
  | [], _ => true
  | _ :: _, [] => false
  | p :: ps, c :: cs => p == c && startsWithData ps cs

/-- Does `pat` occur as a contiguous run of `s`? -/
def containsData (pat : List Char) : List Char → Bool
  | [] => startsWithData pat []
  | c :: rest => startsWithData pat (c :: rest) || containsData pat rest

/-- JavaScript `String.prototype.includes`: substring occurrence. -/
def containsStr (s pat : String) : Bool := containsData pat.data s.data

/-- The data held by one entry of `generatedFiles` in `main.js`: the TOC
files carry strings, the chapter files carry bytes. -/
inductive FileData where
  | text : String → FileData
  | bytes : List Nat → FileData
deriving DecidableEq, Repr

/-- One entry of the `generatedFiles` array in `main.js`:
`{name, data, type}`. -/
structure GenFile where
  name : String
  data : FileData
  mime : String
deriving DecidableEq, Repr

/-- The result object `main.js` receives from the Python `split_pdf_data`
call (after `toJs` conversion).  The embedding carries every field named in
the specification's SplitResult as well as the fields the JavaScript
actually reads (`console_log`, `toc_json`), so that which fields the UI
consumes is provable; `chapters` entries are `[filename, bytes]` pairs as
in `main.js` lines 209-211. -/
structure ResultsJS where
  status : String
  message : String
  console_log : String
  toc_text : String
  toc_json : String
  toc_records : List ChapterRange
  warnings : List String
  chapters : List (String × List Nat)
deriving DecidableEq, Repr

/-- The DOM state `handleFile` writes: `output`, `downloads` (as HTML
text), the `generatedFiles` array and the ZIP button state
(`main.js` lines 178-258). -/
structure ProcessedUI where
  outputText : String
  downloadsHTML : String
  generatedFiles : List GenFile
  zipEnabled : Bool
deriving DecidableEq, Repr

/-- `createDownloadLink` (`main.js` lines 322-337): a paragraph wrapping a
download link for the file (attribute markup elided). -/
def linkHTML (name : String) : String := "<p>Download " ++ name ++ "</p>"

/-- The file-count summary line appended when files were generated
(`main.js` line 245; inline style and quote characters elided). -/
def summaryHTML (n : Nat) : String :=
  "<p>" ++ toString n ++ " file(s) generated. Download individually above or use the Download All button.</p>"

/-- `main.js` lines 250-252: the lines of `message` containing
`Warning:`, joined with `<br/>`. -/
def warningLines (msg : String) : String :=
  String.intercalate "<br/>" ((msg.splitOn "\n").filter (fun l => containsStr l "Warning:"))

/-- The result-processing section of `handleFile` (`main.js` lines
178-258): build the output text, and only when `status === 'success'` push
`chapters.txt` (if `toc_text` is non-empty), then `chapters.json` (if
`toc_json` is non-empty), then one PDF entry per element of `chapters`,
creating a download link for each; enable the ZIP button iff at least one
file was generated; any other status renders a processing-failed message
with no files and the ZIP button disabled.  Chapter bytes arrive from
Pyodide as byte arrays, so the `Uint8Array` conversion at lines 214-228
always succeeds in this model. -/
def processResults (r : ResultsJS) : ProcessedUI :=
  let out0 := "Python script finished.\nStatus: " ++ r.status ++ "\nMessage: " ++ r.message
  let out :=
    if r.console_log ≠ "" then
      out0 ++ "\n\n--- Console Log (from TOC generation) ---\n" ++ r.console_log
    else out0
  if r.status = "success" then
    let txtFiles :=
      if r.toc_text ≠ "" then [GenFile.mk "chapters.txt" (FileData.text r.toc_text) "text/plain"]
      else []
    let jsonFiles :=
      if r.toc_json ≠ "" then
        [GenFile.mk "chapters.json" (FileData.text r.toc_json) "application/json"]
      else []
    let chapFiles := r.chapters.map (fun c => GenFile.mk c.1 (FileData.bytes c.2) "application/pdf")
    let files := txtFiles ++ jsonFiles ++ chapFiles
    if files.length ≠ 0 then
      { outputText := out
        downloadsHTML := String.join (files.map (fun f => linkHTML f.name)) ++ summaryHTML files.length
        generatedFiles := files
        zipEnabled := true }
    else
      { outputText := out
        downloadsHTML := "(No valid chapters/files were generated based on the PDF outline.)" ++
          (if containsStr r.message "Warning:" then "<br/>" ++ warningLines r.message else "")
        generatedFiles := []
        zipEnabled := false }
  else
    { outputText := out
      downloadsHTML := "(Processing failed: " ++ r.message ++ ")"
      generatedFiles := []
      zipEnabled := false }

/-- The full DOM-and-script state touched by the `handleFile` front
guard (`main.js` lines 127-140). -/
structure UIState where
  outputText : String
  fileNameText : String
  inputValue : String
  downloadsHTML : String
  generatedFiles : List GenFile
  zipEnabled : Bool
deriving DecidableEq, Repr

/-- `main.js` line 135: `file.type && file.type.includes('pdf')` — an
absent MIME type is the empty string (both `undefined` and `''` are
falsy). -/
def validMime (m : String) : Bool := m != "" && containsStr m "pdf"

/-- The MIME-type guard of `handleFile` (`main.js` lines 134-140): on a
non-PDF file, set the error text naming the file, clear the displayed file
name, reset the file input and return (`false` = the Python split function
is not invoked); everything else is untouched.  On a PDF file the state is
left for the processing path (`true`). -/
def handleFileGuard (st : UIState) (name mime : String) : UIState × Bool :=
  if validMime mime then (st, true)
  else
    ({ st with
        outputText := "Error: Selected file (" ++ name ++ ") is not a PDF. Please select a PDF file."
        fileNameText := ""
        inputValue := "" }, false)

/-- The ZIP button handler core (`main.js` line 292): the archive receives
exactly the `generatedFiles` entries, in order, as `(name, data)` pairs. -/
def zipEntries (files : List GenFile) : List (String × FileData) :=
  files.map (fun f => (f.name, f.data))

/-- `name.toLowerCase().endsWith('.pdf')` (`main.js` line 283), at the
character-list level: the last four characters, lowercased, are
`.pdf`. -/
def endsWithPdf (s : String) : Bool :=
  (s.data.drop (s.data.length - 4)).map Char.toLower == [Char.ofNat 46, Char.ofNat 112, Char.ofNat 100, Char.ofNat 102]

/-- `name.replace(/\.pdf$/i, '')` (`main.js` lines 284-285): remove a
trailing `.pdf` (any case) if present. -/
def stripPdfExt (s : String) : String :=
  if endsWithPdf s then String.mk (s.data.take (s.data.length - 4)) else s

/-- `fileNameElement.textContent.replace(/^Selected: /, '')`
(`main.js` line 285). -/
def dropSelectedLabel (s : String) : String :=
  if s.startsWith "Selected: " then s.drop 10 else s

/-- The ZIP base-name derivation (`main.js` lines 283-286): take the first
generated file whose name ends in `.pdf`, strip the extension and then
`substring(3)` — three characters, the digits but not the underscore;
fall back to the displayed file name, then to `split_output`. -/
def zipBaseName (files : List GenFile) (fileNameText : String) : String :=
  let fromChapter :=
    match files.find? (fun f => endsWithPdf f.name) with
    | some f => String.mk ((stripPdfExt f.name).data.drop 3)
    | none => ""
  if fromChapter ≠ "" then fromChapter
  else
    let fromLabel := stripPdfExt (dropSelectedLabel fileNameText)
    if fromLabel ≠ "" then fromLabel else "split_output"

/-! ## Concrete inputs used by scenarios, counterexamples and witnesses -/

/-- Scenario A (spec §8): a 10-page document with top-level bookmarks at
pages 0, 3 and 7, all destinations resolved, extraction succeeding. -/
def scenarioADoc : DocModel where
  total_pages := 10
  outline := [⟨"Chapter 1", some 0⟩, ⟨"Chapter 2", some 3⟩, ⟨"Chapter 3", some 7⟩]
  extract_ok := fun _ => true

/-- A document with no outline at all. -/
def noOutlineDoc : DocModel where
  total_pages := 5
  outline := []
  extract_ok := fun _ => true

/-- A successful result as handed to the UI. -/
def resBase : ResultsJS where
  status := "success"
  message := "ok"
  console_log := ""
  toc_text := "T"
  toc_json := "J"
  toc_records := []
  warnings := []
  chapters := [("001_A.pdf", [0])]

/-- A partial result: chapter 2 of 3 failed, artifacts 1 and 3 present. -/
def resPartial : ResultsJS where
  status := "partial"
  message := "Chapter 2 failed"
  console_log := ""
  toc_text := "T"
  toc_json := "J"
  toc_records := []
  warnings := []
  chapters := [("001_A.pdf", [0]), ("003_C.pdf", [2])]

/-- A failure result with no chapters. -/
def resFailure : ResultsJS where
  status := "failure"
  message := "No chapters found"
  console_log := ""
  toc_text := ""
  toc_json := ""
  toc_records := []
  warnings := []
  chapters := []

/-- A success result with zero generated files and a Warning: line inside
`message`. -/
def resEmptyWarn : ResultsJS where
  status := "success"
  message := "Done\nWarning: nothing was produced"
  console_log := ""
  toc_text := ""
  toc_json := ""
  toc_records := []
  warnings := []
  chapters := []

/-! ## C6 — Scenario A -/

/-- C6: for the 10-page document with bookmarks at pages 0, 3, 7 the split
produces exactly the three ranges [0,2], [3,6], [7,9], and the TOC
serializer renders one 1-based line per chapter reporting pages 1-3, 4-7
and 8-10 in the format `<title>: pages <start+1>-<end+1>`. -/
theorem scenario_a_ranges_and_toc :
    (splitModel scenarioADoc).toc_records =
      [ChapterRange.mk "Chapter 1" 0 2, ChapterRange.mk "Chapter 2" 3 6,
        ChapterRange.mk "Chapter 3" 7 9] ∧
    (splitModel scenarioADoc).toc_text =
      "Chapter 1: pages 1-3\nChapter 2: pages 4-7\nChapter 3: pages 8-10" ∧
    (splitModel scenarioADoc).toc_text = tocText (splitModel scenarioADoc).toc_records := by
  refine ⟨by decide, by decide, by decide⟩

/-! ## C3 — the fields the UI consumes -/

/-- C3 counterexample: the UI's result processing is insensitive to the
`toc_records` field (changing it changes nothing), while it does consume
the fields `toc_json` and `console_log`, which the claimed field list does
not contain — so the structured TOC does not cross the boundary as
`toc_records`. -/
theorem splitresult_fields_counterexample :
    processResults { resBase with toc_records := [ChapterRange.mk "A" 0 0] } =
      processResults resBase ∧
    processResults { resBase with toc_json := "K" } ≠ processResults resBase ∧
    processResults { resBase with console_log := "log line" } ≠ processResults resBase := by
  refine ⟨rfl, by decide, by decide⟩

/-- C3 amended: the UI consumes the result object exactly through the
fields `status`, `message`, `console_log`, `toc_text`, `toc_json` and
`chapters`; two results agreeing on those six fields are processed
identically, whatever their `toc_records` and `warnings` fields hold. -/
theorem ui_reads_exactly_consumed_fields (r r' : ResultsJS)
    (h1 : r.status = r'.status) (h2 : r.message = r'.message)
    (h3 : r.console_log = r'.console_log) (h4 : r.toc_text = r'.toc_text)
    (h5 : r.toc_json = r'.toc_json) (h6 : r.chapters = r'.chapters) :
    processResults r = processResults r' := by
  cases r with
  | mk s m cl tt tj tr w ch =>
    cases r' with
    | mk s' m' cl' tt' tj' tr' w' ch' =>
      obtain rfl : s = s' := h1
      obtain rfl : m = m' := h2
      obtain rfl : cl = cl' := h3
      obtain rfl : tt = tt' := h4
      obtain rfl : tj = tj' := h5
      obtain rfl : ch = ch' := h6
      rfl

/-- Witness for the amended C3 at two concrete results that differ only in
`toc_records` and `warnings`. -/
theorem ui_reads_exactly_consumed_fields_witness :
    processResults resBase =
      processResults { resBase with
        toc_records := [ChapterRange.mk "A" 0 0]
        warnings := ["Warning: w"] } :=
  ui_reads_exactly_consumed_fields _ _ rfl rfl rfl rfl rfl rfl

/-! ## C4 — partial results -/

/-- C4 counterexample: a `partial` result carrying the two surviving
artifacts (chapters 1 and 3) is treated by the UI as a failure — no
generated files, ZIP disabled, a processing-failed message — so the
surviving chapters are not delivered to the user. -/
theorem partial_chapters_not_delivered_counterexample :
    (processResults resPartial).generatedFiles = [] ∧
    (processResults resPartial).zipEnabled = false ∧
    (processResults resPartial).downloadsHTML = "(Processing failed: Chapter 2 failed)" := by
  refine ⟨rfl, rfl, rfl⟩

/-- C4 amended: the core keeps the surviving artifacts (in range order)
inside a `partial` result, but the UI delivers chapters only for status
`success`: any `partial` result is rendered as a processing failure with
no generated files and the ZIP button disabled. -/
theorem partial_result_handling (doc : DocModel) (r : ResultsJS)
    (h : r.status = "partial") :
    ((splitModel doc).status = "partial" →
      (splitModel doc).chapters = extractChapters doc (splitModel doc).toc_records) ∧
    (processResults r).generatedFiles = [] ∧
    (processResults r).zipEnabled = false ∧
    (processResults r).downloadsHTML = "(Processing failed: " ++ r.message ++ ")" := by
  constructor
  · intro hp
    rcases hE : flattenOutline doc.outline with _ | ⟨c, rest⟩ <;>
      simp [splitModel, hE] at hp ⊢
  · unfold processResults
    rw [h, if_neg (by decide : ¬ ("partial" : String) = "success")]
    exact ⟨rfl, rfl, rfl⟩

/-- Witness for the amended C4 at the document whose second chapter fails
and the concrete partial result. -/
theorem partial_result_handling_witness :
    ((splitModel (DocModel.mk 10
        [⟨"A", some 0⟩, ⟨"B", some 3⟩, ⟨"C", some 7⟩] (fun n => n != 2))).status = "partial" →
      (splitModel (DocModel.mk 10
        [⟨"A", some 0⟩, ⟨"B", some 3⟩, ⟨"C", some 7⟩] (fun n => n != 2))).chapters =
        extractChapters (DocModel.mk 10
          [⟨"A", some 0⟩, ⟨"B", some 3⟩, ⟨"C", some 7⟩] (fun n => n != 2))
          (splitModel (DocModel.mk 10
            [⟨"A", some 0⟩, ⟨"B", some 3⟩, ⟨"C", some 7⟩] (fun n => n != 2))).toc_records) ∧
    (processResults resPartial).generatedFiles = [] ∧
    (processResults resPartial).zipEnabled = false ∧
    (processResults resPartial).downloadsHTML = "(Processing failed: " ++ resPartial.message ++ ")" :=
  partial_result_handling _ resPartial rfl

/-! ## C5 — warnings -/

/-- C5 counterexample: a result whose `warnings` list holds an anomaly
string is processed exactly as the same result with no warnings, and the
anomaly text appears nowhere in the rendered output — the caller never
enumerates the `warnings` list. -/
theorem warnings_not_enumerated_counterexample :
    processResults { resBase with warnings := ["Warning: clamped page index"] } =
      processResults resBase ∧
    containsStr (processResults { resBase with
      warnings := ["Warning: clamped page index"] }).outputText "clamped" = false ∧
    containsStr (processResults { resBase with
      warnings := ["Warning: clamped page index"] }).downloadsHTML "clamped" = false := by
  refine ⟨rfl, by decide, by decide⟩

/-- C5 amended: the caller displays `message` and ignores the `warnings`
field; the only warning text it ever surfaces is the `Warning:` lines
embedded in `message`, and only when a success result generated zero
files. -/
theorem warnings_in_message_surfaced (r : ResultsJS)
    (hs : r.status = "success") (ht : r.toc_text = "") (hj : r.toc_json = "")
    (hc : r.chapters = []) (hw : containsStr r.message "Warning:" = true) :
    (processResults r).downloadsHTML =
      "(No valid chapters/files were generated based on the PDF outline.)" ++
        ("<br/>" ++ warningLines r.message) := by
  unfold processResults
  rw [hs, if_pos rfl, ht, hj, hc]
  simp [hw]

/-- Witness for the amended C5 at a concrete empty success result with a
warning line inside the message. -/
theorem warnings_in_message_surfaced_witness :
    (processResults resEmptyWarn).downloadsHTML =
      "(No valid chapters/files were generated based on the PDF outline.)" ++
        ("<br/>" ++ warningLines resEmptyWarn.message) :=
  warnings_in_message_surfaced resEmptyWarn rfl rfl rfl rfl (by decide)

/-! ## C7 — totality and failure rendering -/

/-- C7: the split pipeline is a total function whose result always carries
one of the three contractual statuses, a `failure` status always comes with
an empty chapter list, and the UI's result-consuming path renders any
failure-status result as an explanation (processing-failed text, no files,
ZIP disabled) instead of raising. -/
theorem split_always_wellformed_result (doc : DocModel) (r : ResultsJS)
    (hr : r.status = "failure") :
    ((splitModel doc).status = "success" ∨ (splitModel doc).status = "partial" ∨
      (splitModel doc).status = "failure") ∧
    ((splitModel doc).status = "failure" → (splitModel doc).chapters = []) ∧
    (processResults r).generatedFiles = [] ∧
    (processResults r).zipEnabled = false ∧
    (processResults r).downloadsHTML = "(Processing failed: " ++ r.message ++ ")" := by
  refine ⟨?_, ?_, ?_⟩
  · rcases hE : flattenOutline doc.outline with _ | ⟨c, rest⟩
    · simp [splitModel, hE]
    · simp only [splitModel, hE]
      by_cases h1 : (extractChapters doc (partitionRanges (c :: rest) doc.total_pages)).length
          = (partitionRanges (c :: rest) doc.total_pages).length
      · simp [h1]
      · by_cases h2 : (extractChapters doc (partitionRanges (c :: rest) doc.total_pages)).length ≠ 0
        · simp [h1, h2]
        · simp [h1, h2]
  · intro hf
    rcases hE : flattenOutline doc.outline with _ | ⟨c, rest⟩
    · simp [splitModel, hE]
    · simp only [splitModel, hE] at hf ⊢
      by_cases h1 : (extractChapters doc (partitionRanges (c :: rest) doc.total_pages)).length
          = (partitionRanges (c :: rest) doc.total_pages).length
      · simp [h1] at hf
      · by_cases h2 : (extractChapters doc (partitionRanges (c :: rest) doc.total_pages)).length ≠ 0
        · simp [h1, h2] at hf
        · simp only [ne_eq, not_not] at h2
          simp [h1, h2, List.length_eq_zero.mp h2]
  · unfold processResults
    rw [hr, if_neg (by decide : ¬ ("failure" : String) = "success")]
    exact ⟨rfl, rfl, rfl⟩

/-- Witness for C7 at the outline-less document and the concrete failure
result. -/
theorem split_always_wellformed_result_witness :
    (((splitModel noOutlineDoc).status = "success" ∨ (splitModel noOutlineDoc).status = "partial" ∨
      (splitModel noOutlineDoc).status = "failure") ∧
    ((splitModel noOutlineDoc).status = "failure" → (splitModel noOutlineDoc).chapters = []) ∧
    (processResults resFailure).generatedFiles = [] ∧
    (processResults resFailure).zipEnabled = false ∧
    (processResults resFailure).downloadsHTML = "(Processing failed: " ++ resFailure.message ++ ")") :=
  split_always_wellformed_result noOutlineDoc resFailure rfl

/-! ## C9 — the MIME-type guard -/

/-- C9: on a file whose MIME type is absent or does not contain `pdf`, the
handler returns before invoking the Python split function (`false`),
displays an error naming the file, clears the displayed file name, resets
the file input, and leaves the generated-files state and the download area
unchanged. -/
theorem nonpdf_file_rejected (st : UIState) (name mime : String)
    (h : mime = "" ∨ containsStr mime "pdf" = false) :
    handleFileGuard st name mime =
      ({ st with
          outputText := "Error: Selected file (" ++ name ++ ") is not a PDF. Please select a PDF file."
          fileNameText := ""
          inputValue := "" }, false) ∧
    (handleFileGuard st name mime).1.generatedFiles = st.generatedFiles ∧
    (handleFileGuard st name mime).1.downloadsHTML = st.downloadsHTML := by
  have hv : validMime mime = false := by
    rcases h with h | h
    · rw [h]; rfl
    · simp [validMime, h]
  refine ⟨?_, ?_, ?_⟩ <;> simp [handleFileGuard, hv]

/-- Witness for C9 at a concrete text file. -/
theorem nonpdf_file_rejected_witness :
    handleFileGuard (UIState.mk "Ready" "" "" "" [] false) "notes.txt" "text/plain" =
      ({ UIState.mk "Ready" "" "" "" [] false with
          outputText := "Error: Selected file (notes.txt) is not a PDF. Please select a PDF file."
          fileNameText := ""
          inputValue := "" }, false) ∧
    (handleFileGuard (UIState.mk "Ready" "" "" "" [] false) "notes.txt" "text/plain").1.generatedFiles
      = (UIState.mk "Ready" "" "" "" [] false).generatedFiles ∧
    (handleFileGuard (UIState.mk "Ready" "" "" "" [] false) "notes.txt" "text/plain").1.downloadsHTML
      = (UIState.mk "Ready" "" "" "" [] false).downloadsHTML :=
  nonpdf_file_rejected _ "notes.txt" "text/plain" (Or.inr (by decide))

/-! ## C10 — order of generated files and ZIP contents -/

/-- C10: for a success result the generated-files list is exactly
`chapters.txt` (when `toc_text` is non-empty), then `chapters.json` (when
`toc_json` is non-empty), then one PDF entry per element of `chapters` in
order, and nothing else; the ZIP archive receives exactly these files in
this order. -/
theorem success_generated_files_order (r : ResultsJS) (h : r.status = "success") :
    (processResults r).generatedFiles =
      (if r.toc_text ≠ "" then [GenFile.mk "chapters.txt" (FileData.text r.toc_text) "text/plain"]
        else []) ++
      (if r.toc_json ≠ "" then
        [GenFile.mk "chapters.json" (FileData.text r.toc_json) "application/json"] else []) ++
      r.chapters.map (fun c => GenFile.mk c.1 (FileData.bytes c.2) "application/pdf") ∧
    zipEntries (processResults r).generatedFiles =
      ((if r.toc_text ≠ "" then [GenFile.mk "chapters.txt" (FileData.text r.toc_text) "text/plain"]
        else []) ++
      (if r.toc_json ≠ "" then
        [GenFile.mk "chapters.json" (FileData.text r.toc_json) "application/json"] else []) ++
      r.chapters.map (fun c => GenFile.mk c.1 (FileData.bytes c.2) "application/pdf")).map
        (fun f => (f.name, f.data)) := by
  have hgen : (processResults r).generatedFiles =
      (if r.toc_text ≠ "" then [GenFile.mk "chapters.txt" (FileData.text r.toc_text) "text/plain"]
        else []) ++
      (if r.toc_json ≠ "" then
        [GenFile.mk "chapters.json" (FileData.text r.toc_json) "application/json"] else []) ++
      r.chapters.map (fun c => GenFile.mk c.1 (FileData.bytes c.2) "application/pdf") := by
    unfold processResults
    rw [h, if_pos rfl]
    dsimp only
    by_cases hlen :
        ((if r.toc_text ≠ "" then
            [GenFile.mk "chapters.txt" (FileData.text r.toc_text) "text/plain"] else []) ++
          (if r.toc_json ≠ "" then
            [GenFile.mk "chapters.json" (FileData.text r.toc_json) "application/json"] else []) ++
          r.chapters.map (fun c => GenFile.mk c.1 (FileData.bytes c.2) "application/pdf")).length
          ≠ 0
    · rw [if_pos hlen]
    · rw [if_neg hlen]
      simp only [ne_eq, not_not] at hlen
      exact (List.length_eq_zero.mp hlen).symm
  exact ⟨hgen, by rw [hgen]; rfl⟩

/-- Witness for C10 at the concrete success result. -/
theorem success_generated_files_order_witness :
    (processResults resBase).generatedFiles =
      (if resBase.toc_text ≠ "" then
        [GenFile.mk "chapters.txt" (FileData.text resBase.toc_text) "text/plain"] else []) ++
      (if resBase.toc_json ≠ "" then
        [GenFile.mk "chapters.json" (FileData.text resBase.toc_json) "application/json"] else []) ++
      resBase.chapters.map (fun c => GenFile.mk c.1 (FileData.bytes c.2) "application/pdf") ∧
    zipEntries (processResults resBase).generatedFiles =
      ((if resBase.toc_text ≠ "" then
        [GenFile.mk "chapters.txt" (FileData.text resBase.toc_text) "text/plain"] else []) ++
      (if resBase.toc_json ≠ "" then
        [GenFile.mk "chapters.json" (FileData.text resBase.toc_json) "application/json"] else []) ++
      resBase.chapters.map (fun c => GenFile.mk c.1 (FileData.bytes c.2) "application/pdf")).map
        (fun f => (f.name, f.data)) :=
  success_generated_files_order resBase rfl

/-! ## C8 — chapter filenames -/

theorem str_data_append (s t : String) : (s ++ t).data = s.data ++ t.data := rfl

theorem digitChar_toNat (d : Nat) : (digitChar d).toNat = 48 + d % 10 := by
  unfold digitChar
  have h : d % 10 < 10 := Nat.mod_lt _ (by omega)
  generalize d % 10 = k at h ⊢
  interval_cases k <;> rfl

theorem digitChar_inj_mod (x y : Nat) (h : digitChar x = digitChar y) : x % 10 = y % 10 := by
  have hx := digitChar_toNat x
  have hy := digitChar_toNat y
  rw [h] at hx
  omega

/-- The character-list form of a chapter filename with a sub-1000 sequence
number. -/
theorem chapterFilename_data (k : Nat) (hk : k < 1000) (t : String) :
    (chapterFilename k t).data =
      digitChar (k / 100) :: digitChar (k / 10) :: digitChar k :: Char.ofNat 95 ::
        ((sanitizeTitle t).data ++
          [Char.ofNat 46, Char.ofNat 112, Char.ofNat 100, Char.ofNat 102]) := by
  unfold chapterFilename pad3 pad3Chars
  rw [if_pos hk]
  rfl

theorem chapterFilename_inj_seq (n m : Nat) (hn : n < 1000) (hm : m < 1000)
    (t u : String) (h : chapterFilename n t = chapterFilename m u) : n = m := by
  have hd := congrArg String.data h
  rw [chapterFilename_data n hn t, chapterFilename_data m hm u] at hd
  simp only [List.cons.injEq] at hd
  obtain ⟨h1, h2, h3, -⟩ := hd
  have e1 := digitChar_inj_mod _ _ h1
  have e2 := digitChar_inj_mod _ _ h2
  have e3 := digitChar_inj_mod _ _ h3
  omega

theorem extractChaptersAux_mem (doc : DocModel) :
    ∀ (rs : List ChapterRange) (n : Nat) (a : ChapterArtifact),
      a ∈ extractChaptersAux doc n rs →
      ∃ k t, n ≤ k ∧ k < n + rs.length ∧ a.filename = chapterFilename k t := by
  intro rs
  induction rs with
  | nil => intro n a ha; simp [extractChaptersAux] at ha
  | cons r rest ih =>
    intro n a ha
    simp only [extractChaptersAux] at ha
    rcases List.mem_append.mp ha with h1 | h2
    · by_cases hok : doc.extract_ok n
      · rw [if_pos hok] at h1
        simp only [List.mem_singleton] at h1
        exact ⟨n, r.title, le_refl n, by simp, by rw [h1]⟩
      · rw [if_neg hok] at h1
        simp at h1
    · obtain ⟨k, t, hk1, hk2, hf⟩ := ih (n + 1) a h2
      exact ⟨k, t, by omega, by simp only [List.length_cons]; omega, hf⟩

theorem extractChaptersAux_filenames_nodup (doc : DocModel) :
    ∀ (rs : List ChapterRange) (n : Nat), 1 ≤ n → n + rs.length ≤ 1000 →
      ((extractChaptersAux doc n rs).map (fun a => a.filename)).Nodup := by
  intro rs
  induction rs with
  | nil => intro n _ _; simp [extractChaptersAux]
  | cons r rest ih =>
    intro n hn hb
    simp only [List.length_cons] at hb
    simp only [extractChaptersAux]
    by_cases hok : doc.extract_ok n
    · rw [if_pos hok]
      simp only [List.singleton_append, List.map_cons, List.nodup_cons]
      refine ⟨?_, ih (n + 1) (by omega) (by omega)⟩
      intro hmem
      rw [List.mem_map] at hmem
      obtain ⟨a, ha, hfa⟩ := hmem
      obtain ⟨k, t, hk1, hk2, hf⟩ := extractChaptersAux_mem doc rest (n + 1) a ha
      rw [hf] at hfa
      have : k = n := chapterFilename_inj_seq k n (by omega) (by omega) t r.title hfa
      omega
    · rw [if_neg hok]
      simp only [List.nil_append]
      exact ih (n + 1) (by omega) (by omega)

theorem flattenOutline_length_le (es : List OutlineEntry) :
    (flattenOutline es).length ≤ es.length := by
  unfold flattenOutline
  exact le_trans (List.length_filterMap_le _ _) (by simp [List.enum_length])

/-- A generated chapter filename always ends in `.pdf` (as the ZIP handler
tests it). -/
theorem endsWithPdf_chapterFilename (k : Nat) (hk : k < 1000) (t : String) :
    endsWithPdf (chapterFilename k t) = true := by
  unfold endsWithPdf
  rw [chapterFilename_data k hk t]
  have hsplit :
      digitChar (k / 100) :: digitChar (k / 10) :: digitChar k :: Char.ofNat 95 ::
          ((sanitizeTitle t).data ++
            [Char.ofNat 46, Char.ofNat 112, Char.ofNat 100, Char.ofNat 102]) =
        (digitChar (k / 100) :: digitChar (k / 10) :: digitChar k :: Char.ofNat 95 ::
          (sanitizeTitle t).data) ++
          [Char.ofNat 46, Char.ofNat 112, Char.ofNat 100, Char.ofNat 102] := by
    simp
  rw [hsplit]
  have hlen : ((digitChar (k / 100) :: digitChar (k / 10) :: digitChar k :: Char.ofNat 95 ::
      (sanitizeTitle t).data) ++
      [Char.ofNat 46, Char.ofNat 112, Char.ofNat 100, Char.ofNat 102]).length - 4 =
      (digitChar (k / 100) :: digitChar (k / 10) :: digitChar k :: Char.ofNat 95 ::
        (sanitizeTitle t).data).length := by
    simp
  rw [hlen, List.drop_left]
  rfl

/-- Stripping the `.pdf` extension and then three characters (the UI's
`substring(3)`) from a generated chapter filename yields an underscore
followed by the sanitized title. -/
theorem stripPdf_drop3_chapterFilename (k : Nat) (hk : k < 1000) (t : String) :
    String.mk ((stripPdfExt (chapterFilename k t)).data.drop 3) = "_" ++ sanitizeTitle t := by
  unfold stripPdfExt
  rw [endsWithPdf_chapterFilename k hk t, if_pos rfl]
  rw [chapterFilename_data k hk t]
  have hsplit :
      digitChar (k / 100) :: digitChar (k / 10) :: digitChar k :: Char.ofNat 95 ::
          ((sanitizeTitle t).data ++
            [Char.ofNat 46, Char.ofNat 112, Char.ofNat 100, Char.ofNat 102]) =
        (digitChar (k / 100) :: digitChar (k / 10) :: digitChar k :: Char.ofNat 95 ::
          (sanitizeTitle t).data) ++
          [Char.ofNat 46, Char.ofNat 112, Char.ofNat 100, Char.ofNat 102] := by
    simp
  rw [hsplit]
  have hlen : ((digitChar (k / 100) :: digitChar (k / 10) :: digitChar k :: Char.ofNat 95 ::
      (sanitizeTitle t).data) ++
      [Char.ofNat 46, Char.ofNat 112, Char.ofNat 100, Char.ofNat 102]).length - 4 =
      (digitChar (k / 100) :: digitChar (k / 10) :: digitChar k :: Char.ofNat 95 ::
        (sanitizeTitle t).data).length := by
    simp
  rw [hlen, List.take_left]
  rfl

/-- C8 counterexample: the ZIP handler's base-name derivation strips only
three characters after removing the extension, so from the chapter file
`001_Intro.pdf` it recovers `_Intro`, not the sanitized title `Intro`. -/
theorem zip_name_counterexample :
    zipBaseName [GenFile.mk "001_Intro.pdf" (FileData.bytes [0]) "application/pdf"]
        "Selected: book.pdf" = "_Intro" ∧
    sanitizeTitle "Intro" = "Intro" ∧
    ("_Intro" : String) ≠ "Intro" := by
  refine ⟨by decide, by decide, by decide⟩

/-- C8 amended: every chapter artifact filename has the form
`{3-digit, zero-padded sequence number}_{sanitized title}.pdf` and the
filenames within one result are pairwise distinct thanks to the sequence
prefix; however a consumer stripping three characters after removing the
extension (as the ZIP handler does) obtains an underscore followed by the
sanitized title, not the bare sanitized title. -/
theorem chapter_filenames_unique (doc : DocModel) (hdoc : doc.outline.length ≤ 999) :
    ((splitModel doc).chapters.map (fun a => a.filename)).Nodup ∧
    ∀ a ∈ (splitModel doc).chapters, ∃ k t, 1 ≤ k ∧ k ≤ 999 ∧
      a.filename = pad3 k ++ "_" ++ sanitizeTitle t ++ ".pdf" ∧
      String.mk ((stripPdfExt a.filename).data.drop 3) = "_" ++ sanitizeTitle t := by
  rcases hE : flattenOutline doc.outline with _ | ⟨c, rest⟩
  · constructor
    · simp [splitModel, hE]
    · intro a ha
      simp [splitModel, hE] at ha
  · have hlenstarts : (c :: rest).length ≤ 999 := by
      rw [← hE]
      exact le_trans (flattenOutline_length_le doc.outline) hdoc
    have hranges : (partitionRanges (c :: rest) doc.total_pages).length ≤ 999 := by
      unfold partitionRanges
      rw [mkRanges_length, normStarts_length]
      exact hlenstarts
    have hchap : (splitModel doc).chapters =
        extractChapters doc (partitionRanges (c :: rest) doc.total_pages) := by
      simp [splitModel, hE]
    constructor
    · rw [hchap]
      unfold extractChapters
      exact extractChaptersAux_filenames_nodup doc _ 1 (by omega) (by omega)
    · intro a ha
      rw [hchap] at ha
      obtain ⟨k, t, hk1, hk2, hf⟩ := extractChaptersAux_mem doc _ 1 a ha
      refine ⟨k, t, hk1, by omega, by rw [hf]; rfl, ?_⟩
      rw [hf]
      exact stripPdf_drop3_chapterFilename k (by omega) t

/-- Witness for the amended C8 at the Scenario A document. -/
theorem chapter_filenames_unique_witness :
    ((splitModel scenarioADoc).chapters.map (fun a => a.filename)).Nodup ∧
    ∀ a ∈ (splitModel scenarioADoc).chapters, ∃ k t, 1 ≤ k ∧ k ≤ 999 ∧
      a.filename = pad3 k ++ "_" ++ sanitizeTitle t ++ ".pdf" ∧
      String.mk ((stripPdfExt a.filename).data.drop 3) = "_" ++ sanitizeTitle t :=
  chapter_filenames_unique scenarioADoc (by decide)

end PdfSplitter
